import Mathlib

/-!
Verification of the vrchat-light-sync program (src/main.rs): a shallow
embedding of its data model, the range translator, the Home Assistant
state adapter, and the poll-diff-dispatch scheduler loop, together with
theorems settling the specification's claims.

Numbers: the Rust code computes on `f32`.  The embedding idealizes the
finite arithmetic over `ℚ` (exact field arithmetic), and additionally
provides `Fl`, a model of IEEE-style arithmetic with the special values
+inf, -inf and NaN (exact on finite operands), used for the claim about
division by a zero-width span.
-/

namespace LightSync

/-- The bulb state held by the loop, from `struct BulbState` in main.rs.
Rust derives `PartialEq` (full structural equality on all three fields). -/
structure BulbState where
  «on» : Bool
  hue : ℚ
  brightness : ℚ
deriving DecidableEq, Repr

/-- The range translator, from `fn translate` in main.rs, idealized over ℚ. -/
def translate (value prev_start prev_end new_start new_end : ℚ) : ℚ :=
  let prev_span := prev_end - prev_start
  let new_span := new_end - new_start
  let scaled_value := (value - prev_start) / prev_span
  new_start + (scaled_value * new_span)

/-- IEEE-style value: a finite number (kept exact as a rational), one of the
two infinities, or NaN.  Zero is unsigned; this matches the one use below,
where the zero divisor arises as `x - x` (which IEEE rounds to +0). -/
inductive Fl where
  | fin (q : ℚ)
  | inf
  | neginf
  | nan
deriving DecidableEq, Repr

namespace Fl

/-- IEEE subtraction, exact on finite operands. -/
def sub : Fl → Fl → Fl
  | nan, _ => nan
  | _, nan => nan
  | fin a, fin b => fin (a - b)
  | fin _, inf => neginf
  | fin _, neginf => inf
  | inf, fin _ => inf
  | inf, neginf => inf
  | inf, inf => nan
  | neginf, fin _ => neginf
  | neginf, inf => neginf
  | neginf, neginf => nan

/-- IEEE addition, exact on finite operands. -/
def add : Fl → Fl → Fl
  | nan, _ => nan
  | _, nan => nan
  | fin a, fin b => fin (a + b)
  | fin _, inf => inf
  | fin _, neginf => neginf
  | inf, fin _ => inf
  | inf, inf => inf
  | inf, neginf => nan
  | neginf, fin _ => neginf
  | neginf, neginf => neginf
  | neginf, inf => nan

/-- IEEE multiplication, exact on finite operands. -/
def mul : Fl → Fl → Fl
  | nan, _ => nan
  | _, nan => nan
  | fin a, fin b => fin (a * b)
  | fin a, inf => if a = 0 then nan else if 0 < a then inf else neginf
  | fin a, neginf => if a = 0 then nan else if 0 < a then neginf else inf
  | inf, fin b => if b = 0 then nan else if 0 < b then inf else neginf
  | neginf, fin b => if b = 0 then nan else if 0 < b then neginf else inf
  | inf, inf => inf
  | inf, neginf => neginf
  | neginf, inf => neginf
  | neginf, neginf => inf

/-- IEEE division, exact on finite operands; a finite value divided by the
(unsigned, i.e. +0) zero gives a signed infinity, and 0/0 gives NaN. -/
def div : Fl → Fl → Fl
  | nan, _ => nan
  | _, nan => nan
  | fin a, fin b =>
      if b = 0 then (if a = 0 then nan else if 0 < a then inf else neginf)
      else fin (a / b)
  | fin _, inf => fin 0
  | fin _, neginf => fin 0
  | inf, fin b => if 0 ≤ b then inf else neginf
  | neginf, fin b => if 0 ≤ b then neginf else inf
  | inf, inf => nan
  | inf, neginf => nan
  | neginf, inf => nan
  | neginf, neginf => nan

/-- Whether the value is a finite number (neither infinite nor NaN). -/
def isFinite : Fl → Bool
  | fin _ => true
  | _ => false

/-- `fn translate` from main.rs, computed in the IEEE-style model `Fl`
(same sequence of operations as the Rust source). -/
def translate (value prev_start prev_end new_start new_end : Fl) : Fl :=
  let prev_span := prev_end.sub prev_start
  let new_span := new_end.sub new_start
  let scaled_value := (value.sub prev_start).div prev_span
  new_start.add (scaled_value.mul new_span)

end Fl

/-- A value sent in an OSC message, from `nannou_osc::Type` as used here. -/
inductive OscType where
  | bool (b : Bool)
  | float (x : ℚ)
deriving DecidableEq, Repr

/-- One outbound OSC message: address and payload. -/
abbrev Msg := String × OscType

/-- `fn update_vrchat` from main.rs: the three best-effort sends, in order.
Each send's delivery failure is absorbed (`.ok()`), so the attempted
messages are modelled as a list. -/
def update_vrchat (state : BulbState) : List Msg :=
  [ ("/avatar/parameters/on", OscType.bool state.«on»)
  , ("/avatar/parameters/Color", OscType.float state.hue)
  , ("/avatar/parameters/brightness", OscType.float state.brightness) ]

/-- The messages a steady-state loop iteration sends, from
`if state != old_state { update_vrchat(&sender, &state); }` in main.rs. -/
def cycleSent (state old_state : BulbState) : List Msg :=
  if state ≠ old_state then update_vrchat state else []

/-- Dispatch occurs in a cycle when at least one message is sent. -/
def dispatchOccurs (state old_state : BulbState) : Prop :=
  cycleSent state old_state ≠ []

instance (state old_state : BulbState) : Decidable (dispatchOccurs state old_state) := by
  unfold dispatchOccurs
  infer_instance

/-- The minimum cycle period, from
`time::Duration::from_secs_f32(1.0 / config.max_updates_per_second as f32)`. -/
def max_loop_speed (max_updates_per_second : ℚ) : ℚ :=
  1 / max_updates_per_second

/-- The sleep a cycle performs, from
`if elapsed < max_loop_speed { thread::sleep(max_loop_speed - elapsed) }`:
`some d` means sleeping for exactly `d`, `none` means no sleep. -/
def cycleSleep (elapsed period : ℚ) : Option ℚ :=
  if elapsed < period then some (period - elapsed) else none

/-- An observable action of one loop iteration. -/
inductive Event where
  | sent (msgs : List Msg)
  | slept (d : ℚ)
  | fetched (s : BulbState)
deriving DecidableEq, Repr

/-- The ordered actions of one steady-state loop iteration of `fn main`:
the conditional dispatch, then the conditional sleep, then the fetch of
the next state (`state = get_bulb_state(&config)` is the last statement
of the loop body). -/
def cycleEvents (state old_state nextFetch : BulbState) (elapsed period : ℚ) : List Event :=
  (if state ≠ old_state then [Event.sent (update_vrchat state)] else []) ++
  (match cycleSleep elapsed period with
    | some d => [Event.slept d]
    | none => []) ++
  [Event.fetched nextFetch]

/-- The `(state, old_state)` pair held at the start of loop iteration `n`
of `fn main`, given the stream `f` of fetched states (`f 0` is the fetch
before the loop; `f (n+1)` is the fetch at the end of iteration `n`).
Before the loop the code sets `old_state = state.clone()`; each iteration
ends with `old_state = state; state = get_bulb_state(&config)`. -/
def loopPair (f : ℕ → BulbState) : ℕ → BulbState × BulbState
  | 0 => (f 0, f 0)
  | n + 1 => (f (n + 1), (loopPair f n).1)

/-- The messages sent during loop iteration `n`. -/
def sentAt (f : ℕ → BulbState) (n : ℕ) : List Msg :=
  cycleSent (loopPair f n).1 (loopPair f n).2

/-- The pre-loop part of `fn main`: fetch the initial state, copy it into
`old_state`, and call `update_vrchat` unconditionally.  Returns the
initial `(state, old_state)` pair and the messages sent before the loop. -/
def mainInit (f : ℕ → BulbState) : (BulbState × BulbState) × List Msg :=
  let state := f 0
  let old_state := state
  ((state, old_state), update_vrchat state)

/-- JSON values, as produced by `serde_json::Value`. -/
inductive Json where
  | null
  | bool (b : Bool)
  | num (q : ℚ)
  | str (s : String)
  | arr (elems : List Json)
  | obj (fields : List (String × Json))

namespace Json

/-- Indexing `value[key]` on `serde_json::Value`: the member of an object,
or `Null` when the key is absent or the value is not an object. -/
def index (j : Json) (key : String) : Json :=
  match j with
  | obj fields => (fields.lookup key).getD null
  | _ => null

/-- Indexing `value[i]` on `serde_json::Value`: the element of an array,
or `Null` when out of bounds or the value is not an array. -/
def at_ (j : Json) (i : ℕ) : Json :=
  match j with
  | arr elems => (elems.get? i).getD null
  | _ => null

/-- The comparison `value == "str"` on `serde_json::Value`: true exactly
when the value is a string equal to it. -/
def eqStr (j : Json) (s : String) : Bool :=
  match j with
  | str t => t == s
  | _ => false

end Json

/-- The raw hue read by `get_home_assistant_state`:
`json["attributes"]["hs_color"][0]` when it is a number, else the
default `0.0`. -/
def rawHue (j : Json) : ℚ :=
  match ((j.index "attributes").index "hs_color").at_ 0 with
  | Json.num q => q
  | _ => 0

/-- The raw brightness read by `get_home_assistant_state`:
`json["attributes"]["brightness"]` when it is a number, else the
default `0.0`. -/
def rawBrightness (j : Json) : ℚ :=
  match (j.index "attributes").index "brightness" with
  | Json.num q => q
  | _ => 0

/-- The `BulbState` built by `fn get_home_assistant_state` from a parsed
response body `j`: `on` is `json["state"] == "on"`, hue is rescaled from
[0, 360] to [0, 1] and brightness from [0, 255] to [0, 1]. -/
def get_home_assistant_state (j : Json) : BulbState :=
  { «on» := (j.index "state").eqStr "on"
  , hue := translate (rawHue j) 0 360 0 1
  , brightness := translate (rawBrightness j) 0 255 0 1 }

/-- The possible outcomes of one fetch attempt against Home Assistant. -/
inductive FetchInput where
  | netErr (msg : String)
  | badBody
  | ok (j : Json)

/-- Outcome of `fn get_home_assistant_state` including its effects: the
`?` on `send()`/`text()` propagates a transport error to the caller, the
`expect` on `serde_json::from_str` panics on a body that does not parse,
and otherwise a `BulbState` is produced. -/
inductive FetchOutcome where
  | errored (msg : String)
  | panicked (msg : String)
  | success (s : BulbState)

/-- `fn get_home_assistant_state` over an abstract fetch input: a network
failure becomes `Err` (propagated by `?`), an unparseable body panics with
the `expect` message, and a parsed body `j` yields the adapted state. -/
def fetchHA : FetchInput → FetchOutcome
  | FetchInput.netErr m => FetchOutcome.errored m
  | FetchInput.badBody =>
      FetchOutcome.panicked "JSON from Home Assistant endpoint contained errors."
  | FetchInput.ok j => FetchOutcome.success (get_home_assistant_state j)

/-- `fn get_bulb_state`: on `Err(err)` from the adapter it panics with
`Failed to get status from home assistant: {err}`.  A panic terminates the
process (non-zero exit), modelled as `Except.error` carrying the message;
there is no retry path. -/
def get_bulb_state (inp : FetchInput) : Except String BulbState :=
  match fetchHA inp with
  | FetchOutcome.success s => Except.ok s
  | FetchOutcome.errored m =>
      Except.error ("Failed to get status from home assistant: " ++ m)
  | FetchOutcome.panicked m => Except.error m

/-! ## Helper lemmas -/

/-- Adding a finite value to the product of a division by (unsigned) zero
with a finite value is never finite in the IEEE-style model. -/
lemma Fl.add_mul_div_zero_not_finite (c x y : ℚ) :
    Fl.isFinite ((Fl.fin c).add (((Fl.fin x).div (Fl.fin 0)).mul (Fl.fin y))) = false := by
  by_cases hx0 : x = 0
  · simp [Fl.div, Fl.mul, Fl.add, Fl.isFinite, hx0]
  · by_cases hxp : 0 < x
    · by_cases hy0 : y = 0
      · simp [Fl.div, Fl.mul, Fl.add, Fl.isFinite, hx0, hxp, hy0]
      · by_cases hyp : 0 < y <;>
          simp [Fl.div, Fl.mul, Fl.add, Fl.isFinite, hx0, hxp, hy0, hyp]
    · by_cases hy0 : y = 0
      · simp [Fl.div, Fl.mul, Fl.add, Fl.isFinite, hx0, hxp, hy0]
      · by_cases hyp : 0 < y <;>
          simp [Fl.div, Fl.mul, Fl.add, Fl.isFinite, hx0, hxp, hy0, hyp]

/-- Rescaling from [0, e] to [0, 1] is division by e. -/
lemma translate_zero_interval (x e : ℚ) : translate x 0 e 0 1 = x / e := by
  simp [translate]

/-- Dispatch in a steady-state cycle happens exactly when the state changed. -/
lemma dispatchOccurs_iff (cur prev : BulbState) :
    dispatchOccurs cur prev ↔ cur ≠ prev := by
  unfold dispatchOccurs cycleSent
  by_cases h : cur = prev
  · simp [h]
  · simp [h, update_vrchat]

/-- The `state` component at the start of iteration `n` is the `n`-th fetch. -/
lemma loopPair_fst (f : ℕ → BulbState) (n : ℕ) : (loopPair f n).1 = f n := by
  cases n <;> rfl

/-! ## Claims -/

/-- Claim C5: `translate` returns
`new_start + ((value - prev_start) / (prev_end - prev_start)) * (new_end - new_start)`;
it is pure and deterministic (same inputs, same output); and for a
zero-span input interval (`prev_start = prev_end`) the IEEE-style
computation yields an infinite or NaN result (never a finite number)
rather than failing. -/
theorem translate_formula_deterministic_zero_span :
    (∀ value prev_start prev_end new_start new_end : ℚ,
      translate value prev_start prev_end new_start new_end =
        new_start + ((value - prev_start) / (prev_end - prev_start)) * (new_end - new_start))
    ∧ (∀ value prev_start prev_end new_start new_end : ℚ,
      translate value prev_start prev_end new_start new_end =
        translate value prev_start prev_end new_start new_end)
    ∧ (∀ value a new_start new_end : ℚ,
      Fl.isFinite (Fl.translate (Fl.fin value) (Fl.fin a) (Fl.fin a)
        (Fl.fin new_start) (Fl.fin new_end)) = false) := by
  refine ⟨fun _ _ _ _ _ => rfl, fun _ _ _ _ _ => rfl, ?_⟩
  intro v a c d
  unfold Fl.translate
  simp only [Fl.sub, sub_self]
  exact Fl.add_mul_div_zero_not_finite c (v - a) (d - c)

/-- Claim C6: with distinct input endpoints `a ≠ b`, `translate` maps the
endpoints exactly (`translate a a b c d = c`, `translate b a b c d = d`)
and is affine in its first argument. -/
theorem translate_affine_endpoints (a b c d : ℚ) (hab : a ≠ b) :
    translate a a b c d = c ∧ translate b a b c d = d ∧
      ∃ m k : ℚ, ∀ x : ℚ, translate x a b c d = m * x + k := by
  have hba : b - a ≠ 0 := sub_ne_zero.mpr (Ne.symm hab)
  refine ⟨by simp [translate], ?_, (d - c) / (b - a), c - a * ((d - c) / (b - a)), ?_⟩
  · simp only [translate]
    rw [div_self hba]
    ring
  · intro x
    simp only [translate]
    field_simp
    ring

/-- Witness for C6 at the concrete interval [0, 360] mapped to [0, 1]. -/
theorem translate_affine_endpoints_witness :
    translate 0 0 360 0 1 = 0 ∧ translate 360 0 360 0 1 = 1 :=
  ⟨(translate_affine_endpoints 0 360 0 1 (by norm_num)).1,
   (translate_affine_endpoints 0 360 0 1 (by norm_num)).2.1⟩

/-- Claim C9: when the raw hue lies in [0, 360] and the raw brightness in
[0, 255], the adapter's `BulbState` has `hue` and `brightness` in
[0, 1] by the rescale math alone; out-of-range raw values propagate to
out-of-range normalized values (there is no clamp). -/
theorem adapter_normalizes_to_unit_interval (j : Json)
    (h1 : 0 ≤ rawHue j) (h2 : rawHue j ≤ 360)
    (h3 : 0 ≤ rawBrightness j) (h4 : rawBrightness j ≤ 255) :
    (0 ≤ (get_home_assistant_state j).hue ∧ (get_home_assistant_state j).hue ≤ 1
      ∧ 0 ≤ (get_home_assistant_state j).brightness
      ∧ (get_home_assistant_state j).brightness ≤ 1)
    ∧ (∀ x : ℚ, 360 < x → 1 < translate x 0 360 0 1)
    ∧ (∀ x : ℚ, x < 0 → translate x 0 360 0 1 < 0)
    ∧ (∀ x : ℚ, 255 < x → 1 < translate x 0 255 0 1) := by
  refine ⟨?_, ?_, ?_, ?_⟩
  · simp only [get_home_assistant_state, translate_zero_interval]
    refine ⟨div_nonneg h1 (by norm_num), ?_, div_nonneg h3 (by norm_num), ?_⟩
    · rw [div_le_one (by norm_num)]; exact h2
    · rw [div_le_one (by norm_num)]; exact h4
  · intro x hx
    rw [translate_zero_interval, lt_div_iff₀ (by norm_num)]
    linarith
  · intro x hx
    rw [translate_zero_interval]
    exact div_neg_of_neg_of_pos hx (by norm_num)
  · intro x hx
    rw [translate_zero_interval, lt_div_iff₀ (by norm_num)]
    linarith

/-- Witness for C9 at a concrete response body with hue 180 and
brightness 127. -/
theorem adapter_normalizes_to_unit_interval_witness :
    0 ≤ (get_home_assistant_state (Json.obj
      [("state", Json.str "off"),
       ("attributes", Json.obj
         [("hs_color", Json.arr [Json.num 180, Json.num 75]),
          ("brightness", Json.num 127)])])).hue
    ∧ (get_home_assistant_state (Json.obj
      [("state", Json.str "off"),
       ("attributes", Json.obj
         [("hs_color", Json.arr [Json.num 180, Json.num 75]),
          ("brightness", Json.num 127)])])).hue ≤ 1 := by
  have h := adapter_normalizes_to_unit_interval (Json.obj
      [("state", Json.str "off"),
       ("attributes", Json.obj
         [("hs_color", Json.arr [Json.num 180, Json.num 75]),
          ("brightness", Json.num 127)])])
    (by decide) (by decide) (by decide) (by decide)
  exact ⟨h.1.1, h.1.2.1⟩

/-- Claim C1: in the steady-state loop, dispatch occurs if and only if the
current `BulbState` differs from the previous one under full structural
equality; any change triggers a send of all three fields (the full
`update_vrchat` message list); two states differing only in `hue`
dispatch; identical states send nothing. -/
theorem dispatch_iff_state_changed (cur prev : BulbState) :
    (dispatchOccurs cur prev ↔ cur ≠ prev)
    ∧ (cur ≠ prev → cycleSent cur prev = update_vrchat cur)
    ∧ (cur = prev → cycleSent cur prev = [])
    ∧ (cur.hue ≠ prev.hue → dispatchOccurs cur prev)
    ∧ ¬ dispatchOccurs cur cur := by
  refine ⟨dispatchOccurs_iff cur prev, ?_, ?_, ?_, ?_⟩
  · intro h; simp [cycleSent, h]
  · intro h; simp [cycleSent, h]
  · intro h
    exact (dispatchOccurs_iff cur prev).mpr (fun hc => h (congrArg BulbState.hue hc))
  · exact fun h => ((dispatchOccurs_iff cur cur).mp h) rfl

/-- Witness for C1: two states differing only in hue dispatch with the
full three-message list; an identical pair does not dispatch. -/
theorem dispatch_iff_state_changed_witness :
    dispatchOccurs ⟨true, 1, 0⟩ ⟨true, 0, 0⟩
    ∧ cycleSent ⟨true, 1, 0⟩ ⟨true, 0, 0⟩ = update_vrchat ⟨true, 1, 0⟩
    ∧ ¬ dispatchOccurs ⟨true, 1, 0⟩ ⟨true, 1, 0⟩ :=
  ⟨(dispatch_iff_state_changed ⟨true, 1, 0⟩ ⟨true, 0, 0⟩).2.2.2.1 (by decide),
   (dispatch_iff_state_changed ⟨true, 1, 0⟩ ⟨true, 0, 0⟩).2.1 (by decide),
   (dispatch_iff_state_changed ⟨true, 1, 0⟩ ⟨true, 1, 0⟩).2.2.2.2⟩

/-- Claim C2: on the very first cycle dispatch occurs unconditionally,
whatever the first fetch `f 0` returned: the pre-loop code sets
`old_state = state` from the first fetch and sends all three parameters
once before entering the loop. -/
theorem first_cycle_always_dispatches (f : ℕ → BulbState) :
    (mainInit f).2 = update_vrchat (f 0)
    ∧ ((mainInit f).2).length = 3
    ∧ (mainInit f).2 ≠ []
    ∧ (mainInit f).1 = (f 0, f 0) := by
  refine ⟨rfl, rfl, ?_, rfl⟩
  simp [mainInit, update_vrchat]

/-- Witness for C2 at a concrete fetch stream. -/
theorem first_cycle_always_dispatches_witness :
    (mainInit (fun _ => (⟨false, 0, 0⟩ : BulbState))).2 ≠ [] :=
  (first_cycle_always_dispatches (fun _ => (⟨false, 0, 0⟩ : BulbState))).2.2.1

/-- Claim C3: with period `1 / max_updates_per_second`, a cycle whose
elapsed time is below the period sleeps exactly `period - elapsed`, and a
cycle at or above the period does not sleep (and this is not an error:
the cycle still produces a well-defined `Option` outcome). -/
theorem cycle_sleep_compensates (elapsed rate : ℚ) :
    (elapsed < max_loop_speed rate →
      cycleSleep elapsed (max_loop_speed rate) = some (max_loop_speed rate - elapsed))
    ∧ (max_loop_speed rate ≤ elapsed →
      cycleSleep elapsed (max_loop_speed rate) = none) := by
  constructor
  · intro h; simp [cycleSleep, h]
  · intro h; simp [cycleSleep, not_lt.mpr h]

/-- Witness for C3 at rate 10 (period 1/10): elapsed 1/20 sleeps for
1/10 - 1/20, elapsed 1 does not sleep. -/
theorem cycle_sleep_compensates_witness :
    cycleSleep (1/20) (max_loop_speed 10) = some (max_loop_speed 10 - 1/20)
    ∧ cycleSleep 1 (max_loop_speed 10) = none :=
  ⟨(cycle_sleep_compensates (1/20) 10).1 (by norm_num [max_loop_speed]),
   (cycle_sleep_compensates 1 10).2 (by norm_num [max_loop_speed])⟩

/-- Claim C4: the fetch is the last action of a loop iteration (it comes
after the dispatch and after the rate-limiting sleep), the iteration has
already rolled `previous := current`, and hence the state fetched at the
end of iteration `n` is dispatch-decided only at iteration `n + 1`,
compared against the fetch of iteration `n`: a one-cycle lag. -/
theorem fetch_decided_next_cycle (f : ℕ → BulbState) (n : ℕ) (elapsed period : ℚ) :
    loopPair f (n + 1) = (f (n + 1), f n)
    ∧ (dispatchOccurs (loopPair f (n + 1)).1 (loopPair f (n + 1)).2 ↔ f (n + 1) ≠ f n)
    ∧ (∃ pre, cycleEvents (loopPair f n).1 (loopPair f n).2 (f (n + 1)) elapsed period
        = pre ++ [Event.fetched (f (n + 1))]
      ∧ ∀ s : BulbState, Event.fetched s ∉ pre) := by
  have hfst : loopPair f (n + 1) = (f (n + 1), f n) := by
    show (f (n + 1), (loopPair f n).1) = (f (n + 1), f n)
    rw [loopPair_fst]
  refine ⟨hfst, ?_, ?_⟩
  · rw [hfst]
    exact dispatchOccurs_iff (f (n + 1)) (f n)
  · refine ⟨(if (loopPair f n).1 ≠ (loopPair f n).2
        then [Event.sent (update_vrchat (loopPair f n).1)] else []) ++
      (match cycleSleep elapsed period with
        | some d => [Event.slept d]
        | none => []), ?_, ?_⟩
    · unfold cycleEvents
      rw [List.append_assoc]
    · intro s hs
      rcases List.mem_append.mp hs with h | h
      · split at h <;> simp_all
      · rcases hm : cycleSleep elapsed period with _ | d <;> rw [hm] at h <;> simp_all

/-- Witness for C4 at a constant fetch stream, iteration 0, elapsed 0 and
period 1. -/
theorem fetch_decided_next_cycle_witness :
    loopPair (fun _ => (⟨false, 0, 0⟩ : BulbState)) 1 = (⟨false, 0, 0⟩, ⟨false, 0, 0⟩)
    ∧ ¬ dispatchOccurs (loopPair (fun _ => (⟨false, 0, 0⟩ : BulbState)) 1).1
        (loopPair (fun _ => (⟨false, 0, 0⟩ : BulbState)) 1).2
    ∧ ∃ pre, cycleEvents (loopPair (fun _ => (⟨false, 0, 0⟩ : BulbState)) 0).1
        (loopPair (fun _ => (⟨false, 0, 0⟩ : BulbState)) 0).2 ⟨false, 0, 0⟩ 0 1
        = pre ++ [Event.fetched ⟨false, 0, 0⟩]
      ∧ ∀ s : BulbState, Event.fetched s ∉ pre := by
  have h := fetch_decided_next_cycle (fun _ => (⟨false, 0, 0⟩ : BulbState)) 0 0 1
  exact ⟨h.1, fun hd => (h.2.1.mp hd) rfl, h.2.2⟩

/-- Claim C7: on a parsed response body, the two defaults are independent:
if the hue field (first element of the color attribute array) is absent
or non-numeric the adapter uses the default 0.0 for hue, and likewise if
the brightness field is absent or non-numeric it uses 0.0 for brightness
— each regardless of the other field — with no error signalled (the
fetch still succeeds); the boolean `on` field is extracted by equality
comparison of the status field to the literal "on". -/
theorem adapter_defaults_on_missing_fields (j : Json) :
    ((∀ q : ℚ, ((j.index "attributes").index "hs_color").at_ 0 ≠ Json.num q) →
      rawHue j = 0 ∧ (get_home_assistant_state j).hue = 0)
    ∧ ((∀ q : ℚ, (j.index "attributes").index "brightness" ≠ Json.num q) →
      rawBrightness j = 0 ∧ (get_home_assistant_state j).brightness = 0)
    ∧ (get_home_assistant_state j).«on» = (j.index "state").eqStr "on"
    ∧ fetchHA (FetchInput.ok j) = FetchOutcome.success (get_home_assistant_state j) := by
  refine ⟨?_, ?_, rfl, rfl⟩
  · intro hh
    have h1 : rawHue j = 0 := by
      rcases hj : ((j.index "attributes").index "hs_color").at_ 0 with _ | b | q | t | l | o
      · simp [rawHue, hj]
      · simp [rawHue, hj]
      · exact absurd hj (hh q)
      · simp [rawHue, hj]
      · simp [rawHue, hj]
      · simp [rawHue, hj]
    exact ⟨h1, by simp [get_home_assistant_state, h1, translate_zero_interval]⟩
  · intro hb
    have h2 : rawBrightness j = 0 := by
      rcases hj : (j.index "attributes").index "brightness" with _ | b | q | t | l | o
      · simp [rawBrightness, hj]
      · simp [rawBrightness, hj]
      · exact absurd hj (hb q)
      · simp [rawBrightness, hj]
      · simp [rawBrightness, hj]
      · simp [rawBrightness, hj]
    exact ⟨h2, by simp [get_home_assistant_state, h2, translate_zero_interval]⟩

/-- Witness for C7 at two mixed bodies: one whose hs_color[0] is a string
(non-numeric) while brightness is the number 127, and one whose
brightness is absent while hs_color[0] is the number 180; each default
fires independently of the other field. -/
theorem adapter_defaults_on_missing_fields_witness :
    (rawHue (Json.obj
        [("state", Json.str "on"),
         ("attributes", Json.obj
           [("hs_color", Json.arr [Json.str "x"]),
            ("brightness", Json.num 127)])]) = 0
      ∧ (get_home_assistant_state (Json.obj
        [("state", Json.str "on"),
         ("attributes", Json.obj
           [("hs_color", Json.arr [Json.str "x"]),
            ("brightness", Json.num 127)])])).hue = 0)
    ∧ rawBrightness (Json.obj
        [("state", Json.str "on"),
         ("attributes", Json.obj
           [("hs_color", Json.arr [Json.str "x"]),
            ("brightness", Json.num 127)])]) = 127
    ∧ (rawBrightness (Json.obj
        [("state", Json.str "off"),
         ("attributes", Json.obj
           [("hs_color", Json.arr [Json.num 180])])]) = 0
      ∧ (get_home_assistant_state (Json.obj
        [("state", Json.str "off"),
         ("attributes", Json.obj
           [("hs_color", Json.arr [Json.num 180])])])).brightness = 0)
    ∧ rawHue (Json.obj
        [("state", Json.str "off"),
         ("attributes", Json.obj
           [("hs_color", Json.arr [Json.num 180])])]) = 180 := by
  have hB := (adapter_defaults_on_missing_fields (Json.obj
      [("state", Json.str "on"),
       ("attributes", Json.obj
         [("hs_color", Json.arr [Json.str "x"]),
          ("brightness", Json.num 127)])])).1
    (fun q hq => Json.noConfusion hq)
  have hH := (adapter_defaults_on_missing_fields (Json.obj
      [("state", Json.str "off"),
       ("attributes", Json.obj
         [("hs_color", Json.arr [Json.num 180])])])).2.1
    (fun q hq => Json.noConfusion hq)
  exact ⟨hB, rfl, hH, rfl⟩

/-- Claim C8: a network/transport failure, or a response body that cannot
be parsed at all, is fatal: `get_bulb_state` ends in the aborting branch
(the panic, modelled as `Except.error`) with a non-empty descriptive
message, producing no state for any further loop iteration, and there is
no retry path. -/
theorem fetch_failure_aborts (inp : FetchInput)
    (h : inp = FetchInput.badBody ∨ ∃ m : String, inp = FetchInput.netErr m) :
    ∃ msg : String, get_bulb_state inp = Except.error msg ∧ msg ≠ ""
      ∧ ∀ s : BulbState, get_bulb_state inp ≠ Except.ok s := by
  rcases h with h | ⟨m, h⟩
  · subst h
    refine ⟨_, rfl, by decide, ?_⟩
    intro s hs
    exact Except.noConfusion hs
  · subst h
    refine ⟨_, rfl, ?_, ?_⟩
    · intro hc
      have hd := congrArg String.data hc
      rw [String.data_append] at hd
      simp at hd
    · intro s hs
      exact Except.noConfusion hs

/-- Witness for C8 at an unparseable body. -/
theorem fetch_failure_aborts_witness :
    ∃ msg : String, get_bulb_state FetchInput.badBody = Except.error msg ∧ msg ≠ ""
      ∧ ∀ s : BulbState, get_bulb_state FetchInput.badBody ≠ Except.ok s :=
  fetch_failure_aborts FetchInput.badBody (Or.inl rfl)

/-- Claim C10: the adapter's `on` is true exactly when the top-level
status field is the exact string "on"; an absent field (indexing gives
`null`) or any other value — "ON", "Off", null, a number — yields
`on = false`, and no error is signalled. -/
theorem on_iff_status_literal_on (j : Json) :
    ((get_home_assistant_state j).«on» = true ↔ j.index "state" = Json.str "on")
    ∧ ((get_home_assistant_state j).«on» = (j.index "state").eqStr "on")
    ∧ Json.eqStr (Json.str "ON") "on" = false
    ∧ Json.eqStr (Json.str "Off") "on" = false
    ∧ Json.eqStr Json.null "on" = false
    ∧ Json.eqStr (Json.num 1) "on" = false
    ∧ fetchHA (FetchInput.ok j) = FetchOutcome.success (get_home_assistant_state j) := by
  refine ⟨?_, rfl, by decide, by decide, rfl, rfl, rfl⟩
  show Json.eqStr (j.index "state") "on" = true ↔ j.index "state" = Json.str "on"
  rcases hj : j.index "state" with _ | b | q | t | l | o <;> simp [Json.eqStr]

/-- Witness for C10: an absent status field yields `on = false`. -/
theorem on_iff_status_literal_on_witness :
    (get_home_assistant_state Json.null).«on» = false :=
  ((on_iff_status_literal_on Json.null).2.1).trans rfl

end LightSync
